import Mathlib

/-!
Verification of the resilient-call retry/backoff controller of the `rktn`
repository against its natural-language specification.

Embedded source files:
* `src/retry_helper.py` — error classifier `should_retry_on_error` and the
  two-signature backoff calculator `calculate_backoff`.
* `scripts/ai_post_generator.py` — the ad-hoc retry loop
  `generate_with_retry(prompt, max_retries)`.
* the spec's retry controller (`ai_helpers.generate_with_retry`), whose
  implementation file is absent from the source tree (only its unit tests and
  its callers are present); it is modelled from the specification.

Python floats are modelled as rationals (`ℚ`); Python's `random.uniform(0, m)`
is modelled by an explicit jitter sample constrained to `[0, m]`.  The remote
text-generation call is modelled as a function from the invocation index to an
outcome (a raised error message or a response object).
-/

/-- `startsWithChars pat cs` is true when the character list `cs` begins with
the character list `pat` (Python `str.startswith` on decomposed strings). -/
def startsWithChars : List Char → List Char → Bool
  | [], _ => true
  | _ :: _, [] => false
  | p :: ps, c :: cs => (p == c) && startsWithChars ps cs

/-- `occursInChars pat cs` is true when `pat` occurs contiguously somewhere in
`cs`; this models Python's substring test `pat in s`. -/
def occursInChars (pat : List Char) : List Char → Bool
  | [] => startsWithChars pat []
  | c :: cs => startsWithChars pat (c :: cs) || occursInChars pat cs

/-- Python's `pat in s` substring containment on strings. -/
def strOccursIn (pat s : String) : Bool :=
  occursInChars pat.data s.data

/-- Python's `str.lower()`, restricted to the ASCII inputs this codebase
classifies (maps `A`–`Z` to `a`–`z`, leaves every other character alone). -/
def pyLower (s : String) : String :=
  ⟨s.data.map Char.toLower⟩

/-- The fixed indicator substrings of `should_retry_on_error`
(`src/retry_helper.py` line 45). -/
def rate_indicators : List String :=
  ["resource_exhausted", "429", "rate", "timeout", "timedout", "conn", "refused", "reset"]

/-- `should_retry_on_error` (`src/retry_helper.py` lines 35–47): lowercase the
error text and test whether any fixed indicator substring occurs in it.  The
Python `error_text or ""` guard only handles `None`, which the `String` type
already excludes; lowercasing is ASCII on all inputs considered here. -/
def should_retry_on_error (error_text : String) : Bool :=
  let text := pyLower error_text
  rate_indicators.any (fun ind => strOccursIn ind text)

/-- The configuration dictionary consumed by the old-style branch of
`calculate_backoff`: each field models the presence or absence of the
corresponding key, with the Python defaults supplied at the `config.get`
call sites. -/
structure RetryConfig where
  retry_base_backoff : Option ℚ
  rate_limit_multiplier : Option ℚ
  retry_max_backoff : Option ℚ
  retry_jitter_max : Option ℚ

/-- The keyword arguments recognised by the new-style branch of
`calculate_backoff` (`kwargs` in `src/retry_helper.py`). -/
structure NewKwargs where
  rate_limit_multiplier : Option ℚ
  retry_jitter_max : Option ℚ

/-- The runtime dispatch of `calculate_backoff` on its second and third
positional arguments: `old` models `(is_rate_limit : bool, config : dict)`,
`new` models `(base : float, max_backoff : float, **kwargs)`. -/
inductive BackoffArgs
  | old (is_rate_limit : Bool) (config : RetryConfig)
  | new (base : ℚ) (max_backoff : ℚ) (kw : NewKwargs)

/-- The two return shapes of `calculate_backoff`: the old-style branch returns
the triple `(backoff, jitter, sleep_time)`, the new-style branch returns the
single value `sleep_time`. -/
inductive BackoffValue
  | triple (backoff jitter sleep_time : ℚ)
  | single (sleep_time : ℚ)
  deriving DecidableEq

/-- The upper bound of the uniform jitter interval used by each branch of
`calculate_backoff`: the old-style branch uses `retry_jitter_max` with default
2; the new-style branch uses default 0 when `rate_limit_multiplier` was passed
explicitly and default 2 otherwise (`src/retry_helper.py` lines 96–101). -/
def jitter_bound : BackoffArgs → ℚ
  | BackoffArgs.old _ config => config.retry_jitter_max.getD 2
  | BackoffArgs.new _ _ kw =>
    match kw.rate_limit_multiplier with
    | some _ => kw.retry_jitter_max.getD 0
    | none => kw.retry_jitter_max.getD 2

/-- `calculate_backoff` (`src/retry_helper.py` lines 50–111).  `jitterSample`
is the value drawn by `random.uniform(0, jitter_bound args)`.

Old-style branch: `backoff = base * 2^(attempt-1)`, multiplied by
`rate_limit_multiplier` only when `is_rate_limit`, capped at
`retry_max_backoff`; returns `(backoff, jitter, backoff + jitter)` with no cap
on the sum.

New-style branch: `backoff = base * 2^(attempt-1) * rate_limit_multiplier`
(multiplier applied unconditionally, default 6), capped at `max_backoff`;
returns `min (backoff + jitter) max_backoff`.

`attempt` is 1-indexed per the docstring; natural subtraction in
`2 ^ (attempt - 1)` matches Python for every `attempt ≥ 1`. -/
def calculate_backoff (attempt : ℕ) (args : BackoffArgs) (jitterSample : ℚ) : BackoffValue :=
  match args with
  | BackoffArgs.old is_rate_limit config =>
    let base := config.retry_base_backoff.getD 2
    let backoff0 := base * 2 ^ (attempt - 1)
    let backoff1 :=
      if is_rate_limit then backoff0 * config.rate_limit_multiplier.getD 6 else backoff0
    let max_backoff := config.retry_max_backoff.getD 120
    let backoff := min backoff1 max_backoff
    let jitter := jitterSample
    BackoffValue.triple backoff jitter (backoff + jitter)
  | BackoffArgs.new base max_backoff kw =>
    let rate_limit_multiplier := kw.rate_limit_multiplier.getD 6
    let backoff := min (base * 2 ^ (attempt - 1) * rate_limit_multiplier) max_backoff
    let jitter := jitterSample
    BackoffValue.single (min (backoff + jitter) max_backoff)

/-- The total wait encoded in a `calculate_backoff` result: the `sleep_time`
component of either return shape. -/
def sleep_of : BackoffValue → ℚ
  | BackoffValue.triple _ _ s => s
  | BackoffValue.single s => s

/-- Python's `str.strip()` with no argument: remove leading and trailing
whitespace characters. -/
def isPyWhitespace (c : Char) : Bool :=
  c == ' ' || c == '\t' || c == '\n' || c == '\r' || c == '\x0b' || c == '\x0c'

/-- `s.strip()` on a Python string, over the decomposed character list. -/
def pyStrip (s : String) : String :=
  ⟨((s.data.dropWhile isPyWhitespace).reverse.dropWhile isPyWhitespace).reverse⟩

/-- The response object returned by `client.models.generate_content`:
`text` models the direct text attribute (`none` when the attribute is absent
or `None`), `candidates` models the nested
`candidates[0].content.parts[0].text` chain (`none` when any link of the
chain is missing, in which case the Python access raises). -/
structure AIResponse where
  text : Option String
  candidates : Option String

/-- The behaviour of one invocation of the remote call: it either returns a
response object or raises an exception whose description is `msg`. -/
inductive CallOutcome
  | ok (resp : AIResponse)
  | err (msg : String)

/-- The Python truthiness test `hasattr(response, "text") and response.text`
in `scripts/ai_post_generator.py`: the attribute exists, is not `None` and is
a non-empty string. -/
def hasTruthyText (r : AIResponse) : Bool :=
  match r.text with
  | some t => t != ""
  | none => false

/-- The body of the `try` block of `generate_with_retry`
(`scripts/ai_post_generator.py` lines 58–68): perform the remote call, then
extract and strip the text, falling back to the nested candidates chain when
the direct text attribute is absent or falsy; a missing candidates chain
raises (and is caught by the surrounding `except`). -/
def generate_content_attempt (o : CallOutcome) : Except String String :=
  match o with
  | CallOutcome.err m => Except.error m
  | CallOutcome.ok r =>
    if hasTruthyText r then
      Except.ok (pyStrip (r.text.getD ""))
    else
      match r.candidates with
      | some t => Except.ok (pyStrip t)
      | none => Except.error "AttributeError"

/-- The `for i in range(max_retries)` loop of `generate_with_retry`
(`scripts/ai_post_generator.py` lines 57–74).  `made` counts the invocations
of the remote call performed so far; the second component of the result is
the total number of invocations performed. -/
def generate_with_retry_loop (call : ℕ → CallOutcome) : ℕ → ℕ → String × ℕ
  | made, 0 => ("[AIエラー] 最大リトライ回数を超えました", made)
  | made, rem + 1 =>
    match generate_content_attempt (call made) with
    | Except.ok t => (t, made + 1)
    | Except.error _ => generate_with_retry_loop call (made + 1) rem

/-- `generate_with_retry(prompt, max_retries)` of
`scripts/ai_post_generator.py` lines 56–76, with the remote call abstracted
as a function from the invocation index to its outcome.  Returns the produced
string together with the number of remote-call invocations performed. -/
def generate_with_retry (call : ℕ → CallOutcome) (max_retries : ℕ) : String × ℕ :=
  generate_with_retry_loop call 0 max_retries

/-- The metrics event kinds of the spec's data model that the retry controller
emits. -/
inductive EventKind
  | ai_success
  | ai_error
  | ai_rate_limit
  | retry_attempt
  | ai_final_failure
  deriving DecidableEq

/-- The configuration record consumed by the spec's retry controller (§6):
`max_retries`, `base`, `max_backoff`, `rate_limit_multiplier`, `jitter_max`. -/
structure GenConfig where
  max_retries : ℕ
  base : ℚ
  max_backoff : ℚ
  rate_limit_multiplier : ℚ
  jitter_max : ℚ

/-- One run of the spec's retry controller: the returned string, the metrics
events emitted to the log in order, the number of remote-call invocations
performed, and the total time spent suspended between attempts. -/
structure RunResult where
  result : String
  events : List EventKind
  calls : ℕ
  total_sleep : ℚ

/-- Modelled from the spec: §4.2 backoff contract of the controller module
`ai_helpers`, absent from the source tree.  `raw = base * 2^(attempt-1)`,
multiplied by `rate_limit_multiplier` when rate-limited, capped at
`max_backoff`, plus jitter, capped again at `max_backoff`. -/
def backoff_spec (attempt : ℕ) (rate_limited : Bool)
    (base max_backoff rate_limit_multiplier jitterSample : ℚ) : ℚ :=
  let raw := base * 2 ^ (attempt - 1)
  let raw2 := if rate_limited then raw * rate_limit_multiplier else raw
  let capped := min raw2 max_backoff
  min (capped + jitterSample) max_backoff

/-- Modelled from the spec: §4.3 text extraction of `ai_helpers`, absent from
the source tree — use the direct text field, fall back to the nested
candidate/part structure only when the direct field is absent, and treat a
response with neither shape as empty text. -/
def extract_text (r : AIResponse) : String :=
  match r.text with
  | some t => t
  | none =>
    match r.candidates with
    | some t => t
    | none => ""

/-- Modelled from the spec: the body of one attempt of the controller of
`ai_helpers`, absent from the source tree — a raised error propagates to the
surrounding handler, a returned response yields its extracted, stripped text
(a shapeless response yields empty text rather than an error). -/
def attempt_spec (o : CallOutcome) : Except String String :=
  match o with
  | CallOutcome.err m => Except.error m
  | CallOutcome.ok r => Except.ok (pyStrip (extract_text r))

/-- The metrics events emitted for one failed attempt (§4.3): `ai_error`,
then `ai_rate_limit` when the error was classified as rate-limited, then
`retry_attempt`. -/
def retry_events (rl : Bool) : List EventKind :=
  (if rl then [EventKind.ai_error, EventKind.ai_rate_limit] else [EventKind.ai_error]) ++
    [EventKind.retry_attempt]

/-- Modelled from the spec: the attempt loop of `ai_helpers.generate_with_retry`,
absent from the source tree (its unit tests `tests/test_ai_helpers.py` and its
callers `src/affiliate_post_generator.py`, `src/normal_post_generator.py` are
present).  `made` counts the invocations performed, the second argument is the
number of attempts remaining.  On success the stripped text is returned with
an `ai_success` event; on a raised error the error is classified, the backoff
is computed, the per-attempt events are emitted and the loop continues; when
no attempts remain the empty-string sentinel is returned with an
`ai_final_failure` event. -/
def generate_with_retry_spec_loop (call : ℕ → CallOutcome) (jit : ℕ → ℚ)
    (cfg : GenConfig) : ℕ → ℕ → Except String RunResult
  | made, 0 => Except.ok ⟨"", [EventKind.ai_final_failure], made, 0⟩
  | made, rem + 1 =>
    match attempt_spec (call made) with
    | Except.ok t => Except.ok ⟨t, [EventKind.ai_success], made + 1, 0⟩
    | Except.error m =>
      let rl := should_retry_on_error m
      let wait := backoff_spec (made + 1) rl cfg.base cfg.max_backoff
        cfg.rate_limit_multiplier (jit made)
      match generate_with_retry_spec_loop call jit cfg (made + 1) rem with
      | Except.ok r =>
        Except.ok ⟨r.result, retry_events rl ++ r.events, r.calls, wait + r.total_sleep⟩
      | Except.error e => Except.error e

/-- Modelled from the spec: `ai_helpers.generate_with_retry(client, prompt,
config)`, the §4.3 retry controller, absent from the source tree.  The remote
call is abstracted as a function from the invocation index to its outcome and
the jitter samples as a function from the attempt index to the drawn value; a
result of the form `Except.error` would mean an exception escaping to the
caller. -/
def generate_with_retry_spec (call : ℕ → CallOutcome) (jit : ℕ → ℚ)
    (cfg : GenConfig) : Except String RunResult :=
  generate_with_retry_spec_loop call jit cfg 0 cfg.max_retries

/-- The terminal metrics events of the spec's data model (§3): `ai_success`
and `ai_final_failure`. -/
def is_terminal_event : EventKind → Bool
  | EventKind.ai_success => true
  | EventKind.ai_final_failure => true
  | _ => false

/-- The number of terminal metrics events in an emitted event list. -/
def terminal_count (l : List EventKind) : ℕ :=
  (l.filter is_terminal_event).length

/-- Capping preserves order: if the raw value grows, so does the capped one. -/
theorem min_cap_mono {x y M : ℚ} (hxy : x ≤ y) : min x M ≤ min y M :=
  min_le_min hxy le_rfl

/-- Once a capped value sits at the cap, a larger raw value stays at it. -/
theorem min_cap_stable {x y M : ℚ} (hxy : x ≤ y) (hx : min x M = M) :
    min y M = M := by
  rw [min_eq_right_iff] at hx ⊢
  exact hx.trans hxy

/-- The raw exponential `base * 2 ^ (attempt - 1)` is monotone in `attempt`
for nonnegative `base`. -/
theorem raw_pow_mono {base : ℚ} (hb : 0 ≤ base) (attempt : ℕ) :
    base * 2 ^ (attempt - 1) ≤ base * 2 ^ (attempt + 1 - 1) := by
  have h2 : (2 : ℚ) ^ (attempt - 1) ≤ 2 ^ (attempt + 1 - 1) := by
    apply pow_le_pow_right₀ (by norm_num)
    omega
  exact mul_le_mul_of_nonneg_left h2 hb

/-- Claim C7: the error classifier returns `rate_limited = true` on
`"RESOURCE_EXHAUSTED"`, `"429 ..."`, `"rate limit"`, `"timeout"` and
`"connection reset"`, returns `false` on `"invalid api key"`, and in general
returns `true` exactly when the lowercased input contains one of the fixed
indicator substrings. -/
theorem should_retry_classification :
    should_retry_on_error "RESOURCE_EXHAUSTED" = true ∧
    should_retry_on_error "429 ..." = true ∧
    should_retry_on_error "rate limit" = true ∧
    should_retry_on_error "timeout" = true ∧
    should_retry_on_error "connection reset" = true ∧
    should_retry_on_error "invalid api key" = false ∧
    ∀ s : String, should_retry_on_error s = true ↔
      ∃ ind ∈ rate_indicators, strOccursIn ind (pyLower s) = true := by
  refine ⟨by decide, by decide, by decide, by decide, by decide, by decide, ?_⟩
  intro s
  simp [should_retry_on_error, List.any_eq_true]

/-- Claim C2 is false as stated: in the old-style call form, with the default
configuration (jitter bound 2) at attempt 7 and the admissible jitter sample
2, the returned total wait is 122, which exceeds the configured ceiling
`max_backoff = 120`. -/
theorem old_style_sleep_exceeds_cap :
    (0 : ℚ) ≤ 2 ∧
    (2 : ℚ) ≤ jitter_bound (BackoffArgs.old false ⟨none, none, none, none⟩) ∧
    calculate_backoff 7 (BackoffArgs.old false ⟨none, none, none, none⟩) 2 =
      BackoffValue.triple 120 2 122 ∧
    ¬ sleep_of (calculate_backoff 7 (BackoffArgs.old false ⟨none, none, none, none⟩) 2) ≤ 120 := by
  have h : calculate_backoff 7 (BackoffArgs.old false ⟨none, none, none, none⟩) 2 =
      BackoffValue.triple 120 2 122 := by
    norm_num [calculate_backoff]
  refine ⟨by norm_num, ?_, h, ?_⟩
  · norm_num [jitter_bound]
  · rw [h]
    norm_num [sleep_of]

/-- Claim C2 amended: in the new-style call form the returned total wait is
capped at `max_backoff` for every jitter sample; in the old-style call form
only the backoff component is capped at the configured `retry_max_backoff`,
and the returned total wait is that capped backoff plus the jitter sample,
which may exceed the ceiling by up to the jitter. -/
theorem sleep_cap_amended :
    (∀ (attempt : ℕ) (base maxb : ℚ) (kw : NewKwargs) (j : ℚ), 1 ≤ attempt →
      ∃ s, calculate_backoff attempt (BackoffArgs.new base maxb kw) j =
          BackoffValue.single s ∧ s ≤ maxb) ∧
    (∀ (attempt : ℕ) (rl : Bool) (config : RetryConfig) (j : ℚ), 1 ≤ attempt →
      ∃ b s, calculate_backoff attempt (BackoffArgs.old rl config) j =
          BackoffValue.triple b j s ∧
          b ≤ config.retry_max_backoff.getD 120 ∧ s = b + j) := by
  constructor
  · intro attempt base maxb kw j _
    refine ⟨_, rfl, ?_⟩
    exact min_le_right _ _
  · intro attempt rl config j _
    refine ⟨_, _, rfl, ?_, rfl⟩
    exact min_le_right _ _

/-- The hypotheses of `sleep_cap_amended` hold at attempt 1 and the resulting
bounds evaluate as stated on a concrete input. -/
theorem sleep_cap_amended_witness :
    ∃ s, calculate_backoff 1 (BackoffArgs.new 2 120 ⟨none, none⟩) 1 =
        BackoffValue.single s ∧ s ≤ 120 :=
  sleep_cap_amended.1 1 2 120 ⟨none, none⟩ 1 (by norm_num)

/-- Claim C4 is false as stated: the new-style call form applies
`rate_limit_multiplier` (default 6) unconditionally, so at attempt 1 with
`base = 2`, `max_backoff = 120` and zero jitter the result is 12, not
`min (base * 2^(attempt-1)) max_backoff = 2`. -/
theorem new_style_multiplier_unconditional :
    calculate_backoff 1 (BackoffArgs.new 2 120 ⟨none, some 0⟩) 0 =
      BackoffValue.single 12 ∧
    jitter_bound (BackoffArgs.new 2 120 ⟨none, some 0⟩) = 0 ∧
    (12 : ℚ) ≠ min ((2 : ℚ) * 2 ^ (1 - 1)) 120 := by
  refine ⟨by norm_num [calculate_backoff], by norm_num [jitter_bound], by norm_num⟩

/-- Claim C4 amended: the old-style call form multiplies the raw exponential
`base * 2^(attempt-1)` by `rate_limit_multiplier` only when the error was
classified as rate-limited, and with `rate_limited = false` and zero jitter
its backoff and total wait equal `min (base * 2^(attempt-1)) max_backoff`;
the new-style call form applies the multiplier (default 6) unconditionally,
so with zero jitter its result equals
`min (base * 2^(attempt-1) * rate_limit_multiplier) max_backoff`. -/
theorem backoff_formula_amended :
    (∀ (attempt : ℕ) (config : RetryConfig), 1 ≤ attempt →
      calculate_backoff attempt (BackoffArgs.old false config) 0 =
        BackoffValue.triple
          (min (config.retry_base_backoff.getD 2 * 2 ^ (attempt - 1))
            (config.retry_max_backoff.getD 120)) 0
          (min (config.retry_base_backoff.getD 2 * 2 ^ (attempt - 1))
            (config.retry_max_backoff.getD 120))) ∧
    (∀ (attempt : ℕ) (config : RetryConfig), 1 ≤ attempt →
      calculate_backoff attempt (BackoffArgs.old true config) 0 =
        BackoffValue.triple
          (min (config.retry_base_backoff.getD 2 * 2 ^ (attempt - 1) *
              config.rate_limit_multiplier.getD 6)
            (config.retry_max_backoff.getD 120)) 0
          (min (config.retry_base_backoff.getD 2 * 2 ^ (attempt - 1) *
              config.rate_limit_multiplier.getD 6)
            (config.retry_max_backoff.getD 120))) ∧
    (∀ (attempt : ℕ) (base maxb : ℚ) (kw : NewKwargs), 1 ≤ attempt →
      calculate_backoff attempt (BackoffArgs.new base maxb kw) 0 =
        BackoffValue.single
          (min (base * 2 ^ (attempt - 1) * kw.rate_limit_multiplier.getD 6) maxb)) := by
  refine ⟨?_, ?_, ?_⟩
  · intro attempt config _
    simp [calculate_backoff, add_zero]
  · intro attempt config _
    simp [calculate_backoff, add_zero]
  · intro attempt base maxb kw _
    simp only [calculate_backoff, add_zero]
    rw [min_assoc, min_self]

/-- The hypotheses of `backoff_formula_amended` hold at attempt 2 and the
stated formulas evaluate to the expected concrete values there. -/
theorem backoff_formula_amended_witness :
    calculate_backoff 2 (BackoffArgs.old false ⟨some 3, some 5, some 100, some 0⟩) 0 =
      BackoffValue.triple (min ((3 : ℚ) * 2 ^ (2 - 1)) 100) 0
        (min ((3 : ℚ) * 2 ^ (2 - 1)) 100) :=
  backoff_formula_amended.1 2 ⟨some 3, some 5, some 100, some 0⟩ (by norm_num)

/-- Claim C6: with the jitter sample forced to 0, both call forms of the
backoff calculator are non-decreasing in the attempt number (for nonnegative
base and multiplier, as configured durations are), and once the returned wait
equals the cap it stays equal to the cap at every later attempt. -/
theorem backoff_monotone_in_attempt (attempt : ℕ) (_ha : 1 ≤ attempt)
    (config : RetryConfig) (hbase : 0 ≤ config.retry_base_backoff.getD 2)
    (base maxb : ℚ) (kw : NewKwargs) (hb : 0 ≤ base)
    (hm : 0 ≤ kw.rate_limit_multiplier.getD 6) :
    (sleep_of (calculate_backoff attempt (BackoffArgs.old false config) 0) ≤
      sleep_of (calculate_backoff (attempt + 1) (BackoffArgs.old false config) 0)) ∧
    (sleep_of (calculate_backoff attempt (BackoffArgs.old false config) 0) =
        config.retry_max_backoff.getD 120 →
      sleep_of (calculate_backoff (attempt + 1) (BackoffArgs.old false config) 0) =
        config.retry_max_backoff.getD 120) ∧
    (sleep_of (calculate_backoff attempt (BackoffArgs.new base maxb kw) 0) ≤
      sleep_of (calculate_backoff (attempt + 1) (BackoffArgs.new base maxb kw) 0)) ∧
    (sleep_of (calculate_backoff attempt (BackoffArgs.new base maxb kw) 0) = maxb →
      sleep_of (calculate_backoff (attempt + 1) (BackoffArgs.new base maxb kw) 0) = maxb) := by
  have hcollapse : ∀ x M : ℚ, min (min x M) M = min x M := by
    intro x M
    rw [min_assoc, min_self]
  have hraw_old := raw_pow_mono hbase attempt
  have hraw_new : base * 2 ^ (attempt - 1) * kw.rate_limit_multiplier.getD 6 ≤
      base * 2 ^ (attempt + 1 - 1) * kw.rate_limit_multiplier.getD 6 :=
    mul_le_mul_of_nonneg_right (raw_pow_mono hb attempt) hm
  simp only [calculate_backoff, sleep_of, add_zero, hcollapse]
  exact ⟨min_cap_mono hraw_old, min_cap_stable hraw_old,
    min_cap_mono hraw_new, min_cap_stable hraw_new⟩

/-- The hypotheses of `backoff_monotone_in_attempt` hold at attempt 1 with
the default old-style configuration and a concrete new-style configuration. -/
theorem backoff_monotone_in_attempt_witness :
    sleep_of (calculate_backoff 1 (BackoffArgs.old false ⟨none, none, none, none⟩) 0) ≤
      sleep_of (calculate_backoff 2 (BackoffArgs.old false ⟨none, none, none, none⟩) 0) :=
  (backoff_monotone_in_attempt 1 (by norm_num) ⟨none, none, none, none⟩ (by norm_num)
    2 120 ⟨none, none⟩ (by norm_num) (by norm_num)).1

/-- Claim C10: when `calculate_backoff` is invoked new-style with
`rate_limit_multiplier` passed explicitly and no jitter bound supplied, the
jitter bound defaults to 0, so any two admissible invocations with the same
arguments return the same value, namely
`min (base * 2^(attempt-1) * rate_limit_multiplier) max_backoff`. -/
theorem new_style_explicit_multiplier_deterministic (attempt : ℕ) (_ha : 1 ≤ attempt)
    (base maxb m j1 j2 : ℚ)
    (h1 : 0 ≤ j1) (h1b : j1 ≤ jitter_bound (BackoffArgs.new base maxb ⟨some m, none⟩))
    (h2 : 0 ≤ j2) (h2b : j2 ≤ jitter_bound (BackoffArgs.new base maxb ⟨some m, none⟩)) :
    calculate_backoff attempt (BackoffArgs.new base maxb ⟨some m, none⟩) j1 =
      calculate_backoff attempt (BackoffArgs.new base maxb ⟨some m, none⟩) j2 ∧
    calculate_backoff attempt (BackoffArgs.new base maxb ⟨some m, none⟩) j1 =
      BackoffValue.single (min (base * 2 ^ (attempt - 1) * m) maxb) := by
  have hbound : jitter_bound (BackoffArgs.new base maxb ⟨some m, none⟩) = 0 := by
    simp [jitter_bound]
  rw [hbound] at h1b h2b
  have hj1 : j1 = 0 := le_antisymm h1b h1
  have hj2 : j2 = 0 := le_antisymm h2b h2
  subst hj1
  subst hj2
  refine ⟨rfl, ?_⟩
  simp only [calculate_backoff, Option.getD_some, add_zero]
  rw [min_assoc, min_self]

/-- The hypotheses of `new_style_explicit_multiplier_deterministic` hold at a
concrete input, on which the stated formula evaluates to 8. -/
theorem new_style_explicit_multiplier_deterministic_witness :
    calculate_backoff 3 (BackoffArgs.new 1 100 ⟨some 2, none⟩) 0 =
      BackoffValue.single 8 := by
  have h := (new_style_explicit_multiplier_deterministic 3 (by norm_num) 1 100 2 0 0
    (by norm_num) (by norm_num [jitter_bound]) (by norm_num)
    (by norm_num [jitter_bound])).2
  rw [h]
  norm_num

/-- The `scripts/ai_post_generator.py` loop never invokes the remote call
more often than the number of attempts remaining. -/
theorem generate_with_retry_loop_calls_le (call : ℕ → CallOutcome) :
    ∀ (rem made : ℕ), (generate_with_retry_loop call made rem).2 ≤ made + rem := by
  intro rem
  induction rem with
  | zero =>
    intro made
    simp [generate_with_retry_loop]
  | succ k ih =>
    intro made
    cases h : generate_content_attempt (call made) with
    | ok t =>
      simp only [generate_with_retry_loop, h]
      omega
    | error e =>
      simp only [generate_with_retry_loop, h]
      have := ih (made + 1)
      omega

/-- When every invocation of the remote call raises, the
`scripts/ai_post_generator.py` loop consumes all remaining attempts. -/
theorem generate_with_retry_loop_all_err (call : ℕ → CallOutcome)
    (h : ∀ i, ∃ m, call i = CallOutcome.err m) :
    ∀ (rem made : ℕ), (generate_with_retry_loop call made rem).2 = made + rem := by
  intro rem
  induction rem with
  | zero =>
    intro made
    simp [generate_with_retry_loop]
  | succ k ih =>
    intro made
    obtain ⟨m, hm⟩ := h made
    have hatt : generate_content_attempt (call made) = Except.error m := by
      rw [hm]
      rfl
    simp only [generate_with_retry_loop, hatt]
    rw [ih (made + 1)]
    omega

/-- Claim C3: with a remote call that raises on every invocation,
`generate_with_retry` of `scripts/ai_post_generator.py` configured with
`max_retries = N ≥ 1` invokes the call exactly `N` times, and for any call
behaviour it never invokes the call more than `N` times. -/
theorem script_retry_call_count :
    (∀ (N : ℕ) (call : ℕ → CallOutcome), 1 ≤ N →
      (∀ i, ∃ m, call i = CallOutcome.err m) →
      (generate_with_retry call N).2 = N) ∧
    (∀ (N : ℕ) (call : ℕ → CallOutcome), (generate_with_retry call N).2 ≤ N) := by
  constructor
  · intro N call _ herr
    have := generate_with_retry_loop_all_err call herr N 0
    simpa [generate_with_retry] using this
  · intro N call
    have := generate_with_retry_loop_calls_le call N 0
    simpa [generate_with_retry] using this

/-- The hypotheses of `script_retry_call_count` hold for the always-raising
call at `N = 3`, where exactly 3 invocations are performed. -/
theorem script_retry_call_count_witness :
    (1 : ℕ) ≤ 3 ∧
    (generate_with_retry (fun _ => CallOutcome.err "boom") 3).2 = 3 :=
  ⟨by norm_num,
    script_retry_call_count.1 3 (fun _ => CallOutcome.err "boom") (by norm_num)
      (fun _ => ⟨"boom", rfl⟩)⟩

/-- No per-attempt retry event is terminal: the events emitted for a failed
attempt contain neither `ai_success` nor `ai_final_failure`. -/
theorem retry_events_not_terminal (rl : Bool) :
    (retry_events rl).filter is_terminal_event = [] := by
  cases rl <;> decide

/-- Master run lemma for the spec's controller: every run produces an `ok`
result, its event list holds exactly one terminal event, and whenever
`ai_final_failure` was emitted the returned string is the empty sentinel. -/
theorem spec_loop_run (call : ℕ → CallOutcome) (jit : ℕ → ℚ) (cfg : GenConfig) :
    ∀ (rem made : ℕ), ∃ r : RunResult,
      generate_with_retry_spec_loop call jit cfg made rem = Except.ok r ∧
      terminal_count r.events = 1 ∧
      (EventKind.ai_final_failure ∈ r.events → r.result = "") := by
  intro rem
  induction rem with
  | zero =>
    intro made
    exact ⟨⟨"", [EventKind.ai_final_failure], made, 0⟩, rfl, rfl, fun _ => rfl⟩
  | succ k ih =>
    intro made
    cases h : attempt_spec (call made) with
    | ok t =>
      refine ⟨⟨t, [EventKind.ai_success], made + 1, 0⟩, ?_, rfl, ?_⟩
      · simp only [generate_with_retry_spec_loop, h]
      · intro hmem
        simp at hmem
    | error m =>
      obtain ⟨r, hr, hterm, hfail⟩ := ih (made + 1)
      refine ⟨⟨r.result, retry_events (should_retry_on_error m) ++ r.events, r.calls,
        backoff_spec (made + 1) (should_retry_on_error m) cfg.base cfg.max_backoff
          cfg.rate_limit_multiplier (jit made) + r.total_sleep⟩, ?_, ?_, ?_⟩
      · simp only [generate_with_retry_spec_loop, h, hr]
      · show terminal_count (retry_events (should_retry_on_error m) ++ r.events) = 1
        rw [terminal_count, List.filter_append, retry_events_not_terminal]
        simpa using hterm
      · intro hmem
        apply hfail
        rcases List.mem_append.mp hmem with h1 | h2
        · exfalso
          have hempty := retry_events_not_terminal (should_retry_on_error m)
          have : is_terminal_event EventKind.ai_final_failure = true := by decide
          have hmem2 := List.mem_filter.mpr ⟨h1, this⟩
          rw [hempty] at hmem2
          exact absurd hmem2 (List.not_mem_nil _)
        · exact h2

/-- When every invocation of the remote call raises, the spec's controller
consumes all remaining attempts, returns the empty-string sentinel and emits
`ai_final_failure`. -/
theorem spec_loop_all_err (call : ℕ → CallOutcome) (jit : ℕ → ℚ) (cfg : GenConfig)
    (h : ∀ i, ∃ m, call i = CallOutcome.err m) :
    ∀ (rem made : ℕ), ∃ r : RunResult,
      generate_with_retry_spec_loop call jit cfg made rem = Except.ok r ∧
      r.result = "" ∧ r.calls = made + rem ∧
      EventKind.ai_final_failure ∈ r.events := by
  intro rem
  induction rem with
  | zero =>
    intro made
    exact ⟨⟨"", [EventKind.ai_final_failure], made, 0⟩, rfl, rfl, rfl, by simp⟩
  | succ k ih =>
    intro made
    obtain ⟨m, hm⟩ := h made
    have hatt : attempt_spec (call made) = Except.error m := by
      rw [hm]
      rfl
    obtain ⟨r, hr, hres, hcalls, hmem⟩ := ih (made + 1)
    refine ⟨⟨r.result, retry_events (should_retry_on_error m) ++ r.events, r.calls,
      backoff_spec (made + 1) (should_retry_on_error m) cfg.base cfg.max_backoff
        cfg.rate_limit_multiplier (jit made) + r.total_sleep⟩, ?_, hres, ?_, ?_⟩
    · simp only [generate_with_retry_spec_loop, hatt, hr]
    · show r.calls = made + (k + 1)
      omega
    · exact List.mem_append.mpr (Or.inr hmem)

/-- Claim C1: for every remote call that raises on every invocation and every
configuration with `max_retries ≥ 1`, the spec's controller
`generate_with_retry` exhausts its attempts, emits `ai_final_failure` and
returns the empty string as the failure sentinel. -/
theorem spec_retry_exhaustion_returns_sentinel (call : ℕ → CallOutcome)
    (jit : ℕ → ℚ) (cfg : GenConfig) (_hN : 1 ≤ cfg.max_retries)
    (herr : ∀ i, ∃ m, call i = CallOutcome.err m) :
    ∃ r : RunResult, generate_with_retry_spec call jit cfg = Except.ok r ∧
      r.result = "" ∧ r.calls = cfg.max_retries ∧
      EventKind.ai_final_failure ∈ r.events := by
  obtain ⟨r, hr, hres, hcalls, hmem⟩ :=
    spec_loop_all_err call jit cfg herr cfg.max_retries 0
  exact ⟨r, hr, hres, by omega, hmem⟩

/-- The hypotheses of `spec_retry_exhaustion_returns_sentinel` hold for the
always-raising call with `max_retries = 2`. -/
theorem spec_retry_exhaustion_returns_sentinel_witness :
    (1 : ℕ) ≤ 2 ∧
    ∃ r : RunResult,
      generate_with_retry_spec (fun _ => CallOutcome.err "boom") (fun _ => 0)
        ⟨2, 2, 120, 6, 2⟩ = Except.ok r ∧
      r.result = "" ∧ r.calls = 2 ∧ EventKind.ai_final_failure ∈ r.events :=
  ⟨by norm_num,
    spec_retry_exhaustion_returns_sentinel (fun _ => CallOutcome.err "boom")
      (fun _ => 0) ⟨2, 2, 120, 6, 2⟩ (by norm_num) (fun _ => ⟨"boom", rfl⟩)⟩

/-- Claim C5: when the first remote call returns a response with neither a
direct text field nor a nested candidate/part structure, the spec's controller
treats it as empty text and returns a successful (empty) result after exactly
one invocation, with the ordinary `ai_success` terminal event and no
exception. -/
theorem spec_retry_shapeless_response_empty_success (call : ℕ → CallOutcome)
    (jit : ℕ → ℚ) (cfg : GenConfig) (hN : 1 ≤ cfg.max_retries)
    (h0 : call 0 = CallOutcome.ok ⟨none, none⟩) :
    generate_with_retry_spec call jit cfg =
      Except.ok ⟨"", [EventKind.ai_success], 1, 0⟩ := by
  obtain ⟨k, hk⟩ : ∃ k, cfg.max_retries = k + 1 := ⟨cfg.max_retries - 1, by omega⟩
  have hatt : attempt_spec (call 0) = Except.ok "" := by
    rw [h0]
    rfl
  unfold generate_with_retry_spec
  rw [hk]
  simp only [generate_with_retry_spec_loop, hatt]

/-- The hypotheses of `spec_retry_shapeless_response_empty_success` hold for
the call that immediately returns a shapeless response, with `max_retries = 1`. -/
theorem spec_retry_shapeless_response_empty_success_witness :
    generate_with_retry_spec (fun _ => CallOutcome.ok ⟨none, none⟩) (fun _ => 0)
      ⟨1, 2, 120, 6, 2⟩ = Except.ok ⟨"", [EventKind.ai_success], 1, 0⟩ :=
  spec_retry_shapeless_response_empty_success (fun _ => CallOutcome.ok ⟨none, none⟩)
    (fun _ => 0) ⟨1, 2, 120, 6, 2⟩ (by norm_num) rfl

/-- Claim C8: every single invocation of the spec's controller emits exactly
one terminal metrics event — `ai_success` or `ai_final_failure` — before it
returns. -/
theorem spec_retry_one_terminal_event (call : ℕ → CallOutcome) (jit : ℕ → ℚ)
    (cfg : GenConfig) :
    ∃ r : RunResult, generate_with_retry_spec call jit cfg = Except.ok r ∧
      terminal_count r.events = 1 := by
  obtain ⟨r, hr, hterm, _⟩ := spec_loop_run call jit cfg cfg.max_retries 0
  exact ⟨r, hr, hterm⟩

/-- Claim C9: for every remote-call behaviour and configuration, the spec's
controller never lets an exception escape to its caller (the run always
produces a returned value), and failure is communicated only through the
empty-string sentinel together with the metrics log. -/
theorem spec_retry_never_raises (call : ℕ → CallOutcome) (jit : ℕ → ℚ)
    (cfg : GenConfig) :
    ∃ r : RunResult, generate_with_retry_spec call jit cfg = Except.ok r ∧
      (EventKind.ai_final_failure ∈ r.events → r.result = "") := by
  obtain ⟨r, hr, _, hfail⟩ := spec_loop_run call jit cfg cfg.max_retries 0
  exact ⟨r, hr, hfail⟩
